import Mathlib

/-!
Verification of the BrightSmile Dental webhook dispatcher
(`src/webhook_server.py`, function `handle_webhook_request`).

The dispatcher owns two pieces of module-level state: the `appointments`
registry (a dict from lowercased patient name to an appointment record)
and the fixed `available_slots` list.  A request payload is a JSON object;
the dispatcher reads only the keys `type`, `event_type`, `action`,
`patient_name` and `appointment_time`, so the payload is embedded as a
record of those observations.  The dispatcher body runs inside a
`try/except`; any Python exception raised in the body (in this fragment,
only the `IndexError` from `new_time.split()[0]` on a token-free string)
is caught and converted to a generic 500 response.  That is embedded by
an inner body returning `Except Unit` and an outer wrapper catching the
error.
-/

/-- One appointment record: the four string fields of the Python dict
values in `appointments` (`date`, `time`, `doctor`, `status`). -/
structure AppointmentRecord where
  date : String
  time : String
  doctor : String
  status : String
deriving DecidableEq, Repr

/-- The registry: the Python dict keyed by lowercased patient name,
embedded as an association list with unique keys. -/
abbrev Registry := List (String × AppointmentRecord)

/-- Membership/lookup: `appointments[patient_name]` / `patient_name in appointments`. -/
def Registry.findRec : Registry → String → Option AppointmentRecord
  | [], _ => none
  | (k, v) :: rest, name => if k = name then some v else Registry.findRec rest name

/-- In-place mutation of one record: `appointments[patient_name][field] = ...`.
Only the first entry with the given key is changed; no key is added or removed. -/
def Registry.updateRec : Registry → String → (AppointmentRecord → AppointmentRecord) → Registry
  | [], _, _ => []
  | (k, v) :: rest, name, f =>
      if k = name then (k, f v) :: rest else (k, v) :: Registry.updateRec rest name f

/-- The two module-level mutable globals of the server: `appointments`
and `available_slots`. -/
structure ServerState where
  appointments : Registry
  available_slots : List String
deriving DecidableEq, Repr

/-- The initial `appointments` dict of `webhook_server.py` lines 21-34. -/
def appointments : Registry :=
  [ ("john smith", { date := "2025-07-30", time := "3:00 PM",
                     doctor := "Dr. Clark", status := "scheduled" }),
    ("jane doe",   { date := "2025-07-29", time := "10:00 AM",
                     doctor := "Dr. Martinez", status := "scheduled" }) ]

/-- The fixed `available_slots` list of `webhook_server.py` lines 37-44. -/
def available_slots : List String :=
  [ "2025-07-29 2:00 PM",
    "2025-07-30 10:00 AM",
    "2025-07-30 4:00 PM",
    "2025-07-31 9:00 AM",
    "2025-07-31 1:00 PM",
    "2025-08-01 11:00 AM" ]

/-- The server state at process start. -/
def initialState : ServerState :=
  { appointments := appointments, available_slots := available_slots }

/-- The request payload, restricted to the keys the dispatcher reads.
`hasType` / `hasEventType` record the membership tests for the keys
`type` and `event_type`;
the three `Option String` fields record `data.get(k)` (with `none` for a
missing key).  Keys the dispatcher never reads cannot influence it and are
not modelled. -/
structure Payload where
  hasType : Bool
  hasEventType : Bool
  action : Option String
  patient_name : Option String
  appointment_time : Option String
deriving DecidableEq, Repr

/-- The JSON response body produced by the dispatcher, together with the
transport status code (`200` unless `jsonify(...), 500` is used).
`appointment` and `available_slots` are `none` when the corresponding JSON
key is absent from the body. -/
structure Response where
  status : String
  message : String
  appointment : Option AppointmentRecord := none
  available_slots : Option (List String) := none
  httpStatus : Nat := 200
deriving DecidableEq, Repr

/-- Python `str.lower()`: lowercase every character. -/
def pyLower (s : String) : String := ⟨s.data.map Char.toLower⟩

/-- Helper for `pySplit`: walk the characters, accumulating the current
token in reverse; whitespace closes the token (if any), end of input
flushes it. -/
def pySplitAux : List Char → List Char → List String
  | [], acc => if acc.isEmpty then [] else [String.mk acc.reverse]
  | c :: cs, acc =>
      if c.isWhitespace then
        if acc.isEmpty then pySplitAux cs [] else String.mk acc.reverse :: pySplitAux cs []
      else
        pySplitAux cs (c :: acc)

/-- Python `str.split()` with no argument: the maximal runs of
non-whitespace characters, in order (so a whitespace-only or empty string
yields `[]`). -/
def pySplit (s : String) : List String := pySplitAux s.data []

/-- One step of `pyTitle`: the boolean records whether the previous
character was alphabetic (Python: cased). -/
def pyTitleAux : List Char → Bool → List Char
  | [], _ => []
  | c :: cs, prevAlpha =>
      if c.isAlpha then
        (if prevAlpha then c.toLower else c.toUpper) :: pyTitleAux cs true
      else
        c :: pyTitleAux cs false

/-- Python `str.title()`: each alphabetic character that follows a
non-alphabetic one is uppercased, every other alphabetic character is
lowercased. -/
def pyTitle (s : String) : String := ⟨pyTitleAux s.data false⟩

/-- The generic response of the `except` handler (lines 164-169),
returned with transport status 500. -/
def internalError : Response :=
  { status := "error", message := "Internal server error", httpStatus := 500 }

/-- The fixed acknowledgment for webhook-platform validation pings
(lines 80-84). -/
def telnyxAck : Response :=
  { status := "received", message := "Telnyx webhook received successfully" }

/-- The `elif` chain of `handle_webhook_request` (lines 91-162), after
`action` and `patient_name` have been extracted and lowercased.  Returns
`Except Unit` so that the one possible Python exception — the `IndexError`
of `new_time.split()[0]` on line 146 when the split is empty — surfaces as
`.error ()`.  Mutations on the success paths of confirm/cancel/reschedule
are `Registry.updateRec` on the existing key. -/
def dispatch (st : ServerState) (action patient_name : String)
    (appointment_time : Option String) : Except Unit (Response × ServerState) :=
  if action = "lookup_appointment" then
    match Registry.findRec st.appointments patient_name with
    | some apt =>
        .ok ({ status := "success",
               message := "Found appointment for " ++ pyTitle patient_name,
               appointment := some apt }, st)
    | none =>
        .ok ({ status := "not_found",
               message := "No appointment found for " ++ pyTitle patient_name }, st)
  else if action = "check_availability" then
    .ok ({ status := "success",
           available_slots := some (st.available_slots.take 3),
           message := "Here are some available times" }, st)
  else if action = "confirm_appointment" then
    match Registry.findRec st.appointments patient_name with
    | some _ =>
        .ok ({ status := "success",
               message := "Appointment confirmed for " ++ pyTitle patient_name },
             { st with
                 appointments := Registry.updateRec st.appointments patient_name
                   (fun r => { r with status := "confirmed" }) })
    | none =>
        .ok ({ status := "error", message := "Appointment not found" }, st)
  else if action = "cancel_appointment" then
    match Registry.findRec st.appointments patient_name with
    | some _ =>
        .ok ({ status := "success",
               message := "Appointment cancelled for " ++ pyTitle patient_name },
             { st with
                 appointments := Registry.updateRec st.appointments patient_name
                   (fun r => { r with status := "cancelled" }) })
    | none =>
        .ok ({ status := "error", message := "Appointment not found" }, st)
  else if action = "reschedule_appointment" then
    match appointment_time with
    | some new_time =>
        if (Registry.findRec st.appointments patient_name).isSome ∧ new_time ≠ "" then
          match pySplit new_time with
          | [] => .error ()
          | d :: rest =>
              .ok ({ status := "success",
                     message := "Appointment rescheduled for " ++ pyTitle patient_name
                                  ++ " to " ++ new_time },
                   { st with
                       appointments := Registry.updateRec st.appointments patient_name
                         (fun r => { r with date := d,
                                            time := String.intercalate " " rest }) })
        else
          .ok ({ status := "error", message := "Could not reschedule appointment" }, st)
    | none =>
        .ok ({ status := "error", message := "Could not reschedule appointment" }, st)
  else
    .ok ({ status := "error", message := "Unknown action: " ++ action }, st)

/-- The `try` body of `handle_webhook_request` (lines 77-162): a payload
with a `type` or `event_type` key short-circuits to the validation ack;
otherwise `action` and `patient_name` are extracted with default `""` and
lowercased, and the action chain is dispatched. -/
def handleBody (st : ServerState) (data : Payload) : Except Unit (Response × ServerState) :=
  if data.hasType || data.hasEventType then
    .ok (telnyxAck, st)
  else
    dispatch st (pyLower (data.action.getD "")) (pyLower (data.patient_name.getD ""))
      data.appointment_time

/-- `handle_webhook_request` (lines 74-169): the body wrapped in the
`try/except` that converts any raised exception into the generic
`internalError` response, leaving the state untouched. -/
def handle_webhook_request (st : ServerState) (data : Payload) : Response × ServerState :=
  match handleBody st data with
  | .ok r => r
  | .error _ => (internalError, st)

/-! ## Helper lemmas -/

/-- `updateRec` never adds or removes a key: the key list (with order and
multiplicity) is untouched. -/
theorem Registry.updateRec_keys (reg : Registry) (name : String)
    (f : AppointmentRecord → AppointmentRecord) :
    (Registry.updateRec reg name f).map Prod.fst = reg.map Prod.fst := by
  induction reg with
  | nil => rfl
  | cons e rest ih =>
      obtain ⟨k, v⟩ := e
      unfold Registry.updateRec
      by_cases h : k = name
      · rw [if_pos h]
        rfl
      · rw [if_neg h]
        simpa using ih

/-- On a payload without `type`/`event_type`, the body is the action
dispatch on the lowercased `action` and `patient_name` fields. -/
theorem handleBody_no_ping (st : ServerState) (p : Payload)
    (hT : p.hasType = false) (hE : p.hasEventType = false) :
    handleBody st p =
      dispatch st (pyLower (p.action.getD "")) (pyLower (p.patient_name.getD ""))
        p.appointment_time := by
  unfold handleBody
  rw [hT, hE]
  rfl

/-- A body that does not raise passes its result through the wrapper. -/
theorem handle_of_body_ok (st : ServerState) (p : Payload) (r : Response × ServerState)
    (h : handleBody st p = .ok r) :
    handle_webhook_request st p = r := by
  unfold handle_webhook_request
  rw [h]

/-! ## Claim theorems -/

/-- C3: a payload containing a `type` or `event_type` key (whatever its
value) short-circuits to the fixed Telnyx acknowledgment, ignoring any
`action` or `patient_name` fields, and leaves the state unchanged. -/
theorem validation_ping_spec (st : ServerState) (p : Payload)
    (h : p.hasType = true ∨ p.hasEventType = true) :
    handle_webhook_request st p = (telnyxAck, st) := by
  apply handle_of_body_ok
  unfold handleBody
  rcases h with h | h <;> rw [h] <;> simp

/-- C3 witness: a ping with `event_type` and a lookup action still gets
the acknowledgment. -/
theorem validation_ping_witness :
    ((false = true ∨ true = true) ∧
      handle_webhook_request initialState
        ⟨false, true, some "lookup_appointment", some "john smith", none⟩ =
        (telnyxAck, initialState)) :=
  ⟨Or.inr rfl,
   validation_ping_spec initialState
     ⟨false, true, some "lookup_appointment", some "john smith", none⟩ (Or.inr rfl)⟩

/-- C4: `lookup_appointment` returns the stored record verbatim on a known
(case-folded) name and `not_found` otherwise; the state is unchanged in
both cases. -/
theorem lookup_appointment_spec (st : ServerState) (p : Payload)
    (hT : p.hasType = false) (hE : p.hasEventType = false)
    (hA : pyLower (p.action.getD "") = "lookup_appointment") :
    handle_webhook_request st p =
      match Registry.findRec st.appointments (pyLower (p.patient_name.getD "")) with
      | some apt =>
          ({ status := "success",
             message := "Found appointment for " ++ pyTitle (pyLower (p.patient_name.getD "")),
             appointment := some apt }, st)
      | none =>
          ({ status := "not_found",
             message := "No appointment found for "
                          ++ pyTitle (pyLower (p.patient_name.getD "")) }, st) := by
  unfold handle_webhook_request
  rw [handleBody_no_ping st p hT hE]
  unfold dispatch
  rw [hA, if_pos rfl]
  cases h : Registry.findRec st.appointments (pyLower (p.patient_name.getD "")) <;> rfl

/-- C4 witness: looking up `JOHN SMITH` finds the stored `john smith`
record unchanged. -/
theorem lookup_appointment_witness :
    (pyLower ((some "LOOKUP_APPOINTMENT" : Option String).getD "") = "lookup_appointment" ∧
      handle_webhook_request initialState
        ⟨false, false, some "LOOKUP_APPOINTMENT", some "JOHN SMITH", none⟩ =
        ({ status := "success",
           message := "Found appointment for John Smith",
           appointment := some { date := "2025-07-30", time := "3:00 PM",
                                 doctor := "Dr. Clark", status := "scheduled" } },
         initialState)) := by
  refine ⟨by decide, ?_⟩
  rw [lookup_appointment_spec initialState
    ⟨false, false, some "LOOKUP_APPOINTMENT", some "JOHN SMITH", none⟩ rfl rfl (by decide)]
  decide

/-- C5: `check_availability` always answers with the first three entries
of the slot list, whatever the rest of the payload holds, and mutates
nothing. -/
theorem check_availability_spec (st : ServerState) (p : Payload)
    (hT : p.hasType = false) (hE : p.hasEventType = false)
    (hA : pyLower (p.action.getD "") = "check_availability") :
    handle_webhook_request st p =
      ({ status := "success",
         message := "Here are some available times",
         available_slots := some (st.available_slots.take 3) }, st) := by
  unfold handle_webhook_request
  rw [handleBody_no_ping st p hT hE]
  unfold dispatch
  rw [hA, if_neg (by decide), if_pos rfl]

/-- C5 witness: on the initial state the three slots are the first three
entries of `available_slots`, independently of the other payload fields. -/
theorem check_availability_witness :
    (pyLower ((some "check_availability" : Option String).getD "") = "check_availability" ∧
      handle_webhook_request initialState
        ⟨false, false, some "check_availability", some "jane doe", some "2031-01-01"⟩ =
        ({ status := "success",
           message := "Here are some available times",
           available_slots := some ["2025-07-29 2:00 PM", "2025-07-30 10:00 AM",
                                    "2025-07-30 4:00 PM"] }, initialState)) := by
  refine ⟨by decide, ?_⟩
  rw [check_availability_spec initialState
    ⟨false, false, some "check_availability", some "jane doe", some "2031-01-01"⟩ rfl rfl rfl]
  decide

/-- C8: a payload without `type`/`event_type` whose case-folded action is
none of the five recognized ones gets `Unknown action: <action>` with the
case-folded action echoed, and the state is unchanged. -/
theorem unknown_action_spec (st : ServerState) (p : Payload)
    (hT : p.hasType = false) (hE : p.hasEventType = false)
    (h1 : pyLower (p.action.getD "") ≠ "lookup_appointment")
    (h2 : pyLower (p.action.getD "") ≠ "check_availability")
    (h3 : pyLower (p.action.getD "") ≠ "confirm_appointment")
    (h4 : pyLower (p.action.getD "") ≠ "cancel_appointment")
    (h5 : pyLower (p.action.getD "") ≠ "reschedule_appointment") :
    handle_webhook_request st p =
      ({ status := "error",
         message := "Unknown action: " ++ pyLower (p.action.getD "") }, st) := by
  unfold handle_webhook_request
  rw [handleBody_no_ping st p hT hE]
  unfold dispatch
  rw [if_neg h1, if_neg h2, if_neg h3, if_neg h4, if_neg h5]

/-- C8 witness: a payload with no action at all folds to the empty string
and is reported as `Unknown action: `. -/
theorem unknown_action_witness :
    (pyLower ((none : Option String).getD "") ≠ "lookup_appointment" ∧
      handle_webhook_request initialState ⟨false, false, none, none, none⟩ =
        ({ status := "error", message := "Unknown action: " ++ pyLower "" }, initialState)) := by
  refine ⟨by decide, ?_⟩
  exact unknown_action_spec initialState ⟨false, false, none, none, none⟩ rfl rfl
    (by decide) (by decide) (by decide) (by decide) (by decide)

/-- C6: `confirm_appointment` / `cancel_appointment` on a known name sets
only the `status` field of the record to `confirmed` / `cancelled` and reports
success with the title-cased name; on an unknown name it reports
`Appointment not found` and mutates nothing. -/
theorem confirm_cancel_spec (st : ServerState) (p : Payload)
    (hT : p.hasType = false) (hE : p.hasEventType = false)
    (hA : pyLower (p.action.getD "") = "confirm_appointment" ∨
          pyLower (p.action.getD "") = "cancel_appointment") :
    handle_webhook_request st p =
      (let verb :=
        if pyLower (p.action.getD "") = "confirm_appointment" then "confirmed" else "cancelled"
       match Registry.findRec st.appointments (pyLower (p.patient_name.getD "")) with
       | some _ =>
           ({ status := "success",
              message := "Appointment " ++ verb ++ " for "
                           ++ pyTitle (pyLower (p.patient_name.getD "")) },
            { st with
                appointments := Registry.updateRec st.appointments
                  (pyLower (p.patient_name.getD "")) (fun r => { r with status := verb }) })
       | none =>
           ({ status := "error", message := "Appointment not found" }, st)) := by
  unfold handle_webhook_request
  rw [handleBody_no_ping st p hT hE]
  unfold dispatch
  rcases hA with hA | hA <;> rw [hA] <;>
    [skip; rw [if_neg (by decide), if_neg (by decide), if_neg (by decide), if_pos rfl]] <;>
    [rw [if_neg (by decide), if_neg (by decide), if_pos rfl]; skip] <;>
    simp only [if_pos rfl, if_neg (by decide : ¬ ("cancel_appointment" : String) = "confirm_appointment")] <;>
    cases h : Registry.findRec st.appointments (pyLower (p.patient_name.getD "")) <;> rfl

/-- C6 witness: confirming `john smith` flips only his status to
`confirmed`. -/
theorem confirm_cancel_witness :
    ((pyLower ((some "confirm_appointment" : Option String).getD "") = "confirm_appointment" ∨
      pyLower ((some "confirm_appointment" : Option String).getD "") = "cancel_appointment") ∧
      handle_webhook_request initialState
        ⟨false, false, some "confirm_appointment", some "John Smith", none⟩ =
        ({ status := "success", message := "Appointment confirmed for John Smith" },
         { initialState with
             appointments :=
               [ ("john smith", { date := "2025-07-30", time := "3:00 PM",
                                  doctor := "Dr. Clark", status := "confirmed" }),
                 ("jane doe",   { date := "2025-07-29", time := "10:00 AM",
                                  doctor := "Dr. Martinez", status := "scheduled" }) ] })) := by
  refine ⟨Or.inl (by decide), ?_⟩
  rw [confirm_cancel_spec initialState
    ⟨false, false, some "confirm_appointment", some "John Smith", none⟩ rfl rfl
    (Or.inl (by decide))]
  decide

/-- C7: `reschedule_appointment` with a missing or empty
`appointment_time`, or with an unknown patient, answers
`Could not reschedule appointment` and mutates nothing. -/
theorem reschedule_error_spec (st : ServerState) (p : Payload)
    (hT : p.hasType = false) (hE : p.hasEventType = false)
    (hA : pyLower (p.action.getD "") = "reschedule_appointment")
    (h : p.appointment_time = none ∨ p.appointment_time = some "" ∨
         Registry.findRec st.appointments (pyLower (p.patient_name.getD "")) = none) :
    handle_webhook_request st p =
      ({ status := "error", message := "Could not reschedule appointment" }, st) := by
  unfold handle_webhook_request
  rw [handleBody_no_ping st p hT hE]
  unfold dispatch
  rw [hA, if_neg (by decide), if_neg (by decide), if_neg (by decide), if_neg (by decide),
    if_pos rfl]
  rcases h with h | h | h
  · rw [h]
  · simp [h]
  · cases ht : p.appointment_time with
    | none => rfl
    | some t => simp [ht, h]

/-- C7 witness: rescheduling `john smith` without an `appointment_time`
is refused and the state survives untouched. -/
theorem reschedule_error_witness :
    (pyLower ((some "reschedule_appointment" : Option String).getD "") =
        "reschedule_appointment" ∧
      handle_webhook_request initialState
        ⟨false, false, some "reschedule_appointment", some "john smith", none⟩ =
        ({ status := "error", message := "Could not reschedule appointment" },
         initialState)) :=
  ⟨by decide,
   reschedule_error_spec initialState
     ⟨false, false, some "reschedule_appointment", some "john smith", none⟩ rfl rfl
     (by decide) (Or.inl rfl)⟩

/-- C1 counterexample: `appointment_time = " "` is a non-empty string and
`jane doe` is a registry key, yet the dispatcher does not return a success
response — `" ".split()` has no first token, the `IndexError` is caught,
and the answer is the generic 500 error. -/
theorem reschedule_claim_counterexample :
    ((" " : String) ≠ "" ∧
      (Registry.findRec initialState.appointments (pyLower "jane doe")).isSome = true ∧
      handle_webhook_request initialState
        ⟨false, false, some "reschedule_appointment", some "jane doe", some " "⟩ =
        (internalError, initialState) ∧
      (handle_webhook_request initialState
        ⟨false, false, some "reschedule_appointment", some "jane doe", some " "⟩).1.status
        ≠ "success") := by
  decide

/-- C1 (amended): for a known patient and an `appointment_time` with at
least one whitespace-separated token, reschedule overwrites the stored
`date` with the first token and its `time` with the remaining tokens
rejoined by single spaces, and the success message echoes the raw
`appointment_time` string. -/
theorem reschedule_success_spec (st : ServerState) (p : Payload)
    (hT : p.hasType = false) (hE : p.hasEventType = false)
    (hA : pyLower (p.action.getD "") = "reschedule_appointment")
    (t : String) (ht : p.appointment_time = some t)
    (hfound : (Registry.findRec st.appointments (pyLower (p.patient_name.getD ""))).isSome
                = true)
    (d : String) (rest : List String) (hsplit : pySplit t = d :: rest) :
    handle_webhook_request st p =
      ({ status := "success",
         message := "Appointment rescheduled for " ++ pyTitle (pyLower (p.patient_name.getD ""))
                      ++ " to " ++ t },
       { st with
           appointments := Registry.updateRec st.appointments
             (pyLower (p.patient_name.getD ""))
             (fun r => { r with date := d, time := String.intercalate " " rest }) }) := by
  have hne : t ≠ "" := by
    intro he
    rw [he] at hsplit
    simp [pySplit, pySplitAux] at hsplit
  unfold handle_webhook_request
  rw [handleBody_no_ping st p hT hE]
  unfold dispatch
  rw [hA, if_neg (by decide), if_neg (by decide), if_neg (by decide), if_neg (by decide),
    if_pos rfl, ht]
  simp only [if_pos (And.intro hfound hne), hsplit]

/-- C1 witness: rescheduling `jane doe` to `2025-08-02 9:00 AM` stores
`date = 2025-08-02`, `time = 9:00 AM`, and echoes the raw string. -/
theorem reschedule_success_witness :
    (pySplit "2025-08-02 9:00 AM" = ["2025-08-02", "9:00", "AM"] ∧
      handle_webhook_request initialState
        ⟨false, false, some "reschedule_appointment", some "Jane Doe",
         some "2025-08-02 9:00 AM"⟩ =
        ({ status := "success",
           message := "Appointment rescheduled for Jane Doe to 2025-08-02 9:00 AM" },
         { initialState with
             appointments :=
               [ ("john smith", { date := "2025-07-30", time := "3:00 PM",
                                  doctor := "Dr. Clark", status := "scheduled" }),
                 ("jane doe",   { date := "2025-08-02", time := "9:00 AM",
                                  doctor := "Dr. Martinez", status := "scheduled" }) ] })) := by
  refine ⟨by decide, ?_⟩
  rw [reschedule_success_spec initialState
    ⟨false, false, some "reschedule_appointment", some "Jane Doe", some "2025-08-02 9:00 AM"⟩
    rfl rfl (by decide) "2025-08-02 9:00 AM" rfl (by decide)
    "2025-08-02" ["9:00", "AM"] (by decide)]
  decide

/-- C2: a non-empty all-whitespace `appointment_time` for a known patient
does not hit the business reschedule error: the body raises (no token to
index), the wrapper catches it, the answer is the generic 500
`Internal server error`, and the state — including the record of that patient —
is unchanged. -/
theorem reschedule_whitespace_fault (st : ServerState) (p : Payload)
    (hT : p.hasType = false) (hE : p.hasEventType = false)
    (hA : pyLower (p.action.getD "") = "reschedule_appointment")
    (t : String) (ht : p.appointment_time = some t) (hne : t ≠ "")
    (hfound : (Registry.findRec st.appointments (pyLower (p.patient_name.getD ""))).isSome
                = true)
    (hsplit : pySplit t = []) :
    handleBody st p = .error () ∧
    handle_webhook_request st p = (internalError, st) ∧
    (handle_webhook_request st p).1.message ≠ "Could not reschedule appointment" := by
  have hbody : handleBody st p = .error () := by
    rw [handleBody_no_ping st p hT hE]
    unfold dispatch
    rw [hA, if_neg (by decide), if_neg (by decide), if_neg (by decide), if_neg (by decide),
      if_pos rfl, ht]
    simp only [if_pos (And.intro hfound hne), hsplit]
  have hall : handle_webhook_request st p = (internalError, st) := by
    unfold handle_webhook_request
    rw [hbody]
  refine ⟨hbody, hall, ?_⟩
  rw [hall]
  show internalError.message ≠ "Could not reschedule appointment"
  decide

/-- C2 witness: the `" "` reschedule for `jane doe` is answered by the
generic 500 error with the initial state intact. -/
theorem reschedule_whitespace_fault_witness :
    (pySplit " " = ([] : List String) ∧
      handle_webhook_request initialState
        ⟨false, false, some "reschedule_appointment", some "jane doe", some " "⟩ =
        (internalError, initialState)) :=
  ⟨by decide,
   (reschedule_whitespace_fault initialState
     ⟨false, false, some "reschedule_appointment", some "jane doe", some " "⟩ rfl rfl
     (by decide) " " rfl (by decide) (by decide) (by decide)).2.1⟩

/-- C9: the dispatcher only ever reads the case-folds of `action` and
`patient_name`, so payloads whose `action` and `patient_name` agree after
lowercasing (all other fields equal) get the same response and leave the
same state. -/
theorem case_insensitive_spec (st : ServerState) (ht he : Bool)
    (a₁ a₂ n₁ n₂ t : Option String)
    (ha : pyLower (a₁.getD "") = pyLower (a₂.getD ""))
    (hn : pyLower (n₁.getD "") = pyLower (n₂.getD "")) :
    handle_webhook_request st ⟨ht, he, a₁, n₁, t⟩ =
      handle_webhook_request st ⟨ht, he, a₂, n₂, t⟩ := by
  unfold handle_webhook_request handleBody
  simp only [ha, hn]

/-- C9 witness: `JOHN SMITH` with an uppercased action behaves exactly
like `john smith` with the lowercase action. -/
theorem case_insensitive_witness :
    (pyLower ((some "LOOKUP_APPOINTMENT" : Option String).getD "") =
        pyLower ((some "lookup_appointment" : Option String).getD "") ∧
      handle_webhook_request initialState
        ⟨false, false, some "LOOKUP_APPOINTMENT", some "JOHN SMITH", none⟩ =
      handle_webhook_request initialState
        ⟨false, false, some "lookup_appointment", some "john smith", none⟩) :=
  ⟨by decide,
   case_insensitive_spec initialState false false
     (some "LOOKUP_APPOINTMENT") (some "lookup_appointment")
     (some "JOHN SMITH") (some "john smith") none (by decide) (by decide)⟩

/-- Every dispatch either leaves the state alone or replaces it by an
`updateRec` of the patient key, and the latter only under one of the three
mutating actions. -/
theorem handle_state_cases (st : ServerState) (p : Payload) :
    (handle_webhook_request st p).2 = st ∨
    (∃ f, (handle_webhook_request st p).2 =
        { st with
            appointments := Registry.updateRec st.appointments
              (pyLower (p.patient_name.getD "")) f } ∧
      (pyLower (p.action.getD "") = "confirm_appointment" ∨
       pyLower (p.action.getD "") = "cancel_appointment" ∨
       pyLower (p.action.getD "") = "reschedule_appointment")) := by
  unfold handle_webhook_request handleBody
  cases hb : (p.hasType || p.hasEventType)
  · simp only [Bool.false_eq_true, if_false]
    unfold dispatch
    by_cases h1 : pyLower (p.action.getD "") = "lookup_appointment"
    · rw [if_pos h1]
      cases hf : Registry.findRec st.appointments (pyLower (p.patient_name.getD "")) <;>
        exact Or.inl rfl
    rw [if_neg h1]
    by_cases h2 : pyLower (p.action.getD "") = "check_availability"
    · rw [if_pos h2]
      exact Or.inl rfl
    rw [if_neg h2]
    by_cases h3 : pyLower (p.action.getD "") = "confirm_appointment"
    · rw [if_pos h3]
      cases hf : Registry.findRec st.appointments (pyLower (p.patient_name.getD ""))
      · exact Or.inl rfl
      · exact Or.inr ⟨fun r => { r with status := "confirmed" }, rfl, Or.inl h3⟩
    rw [if_neg h3]
    by_cases h4 : pyLower (p.action.getD "") = "cancel_appointment"
    · rw [if_pos h4]
      cases hf : Registry.findRec st.appointments (pyLower (p.patient_name.getD ""))
      · exact Or.inl rfl
      · exact Or.inr ⟨fun r => { r with status := "cancelled" }, rfl, Or.inr (Or.inl h4)⟩
    rw [if_neg h4]
    by_cases h5 : pyLower (p.action.getD "") = "reschedule_appointment"
    · rw [if_pos h5]
      cases hat : p.appointment_time with
      | none => exact Or.inl rfl
      | some nt =>
          by_cases hc : (Registry.findRec st.appointments
              (pyLower (p.patient_name.getD ""))).isSome = true ∧ nt ≠ ""
          · cases hsp : pySplit nt with
            | nil =>
                left
                simp [hc, hsp]
            | cons d rest =>
                right
                refine ⟨fun r => { r with date := d, time := String.intercalate " " rest },
                  ?_, Or.inr (Or.inr h5)⟩
                simp [hc, hsp]
          · left
            simp [hc]
    rw [if_neg h5]
    exact Or.inl rfl
  · exact Or.inl rfl

/-- C10: no dispatch touches `available_slots`; every dispatch keeps the
key list of the registry (no insertion, no deletion, order included); and a
payload whose case-folded action is not one of confirm, cancel or
reschedule leaves the whole state unchanged. -/
theorem frame_spec (st : ServerState) (p : Payload) :
    (handle_webhook_request st p).2.available_slots = st.available_slots ∧
    (handle_webhook_request st p).2.appointments.map Prod.fst =
      st.appointments.map Prod.fst ∧
    (pyLower (p.action.getD "") ≠ "confirm_appointment" →
     pyLower (p.action.getD "") ≠ "cancel_appointment" →
     pyLower (p.action.getD "") ≠ "reschedule_appointment" →
     (handle_webhook_request st p).2 = st) := by
  rcases handle_state_cases st p with h | ⟨f, h, hact⟩
  · rw [h]
    exact ⟨rfl, rfl, fun _ _ _ => rfl⟩
  · rw [h]
    refine ⟨rfl, Registry.updateRec_keys _ _ _, ?_⟩
    intro h1 h2 h3
    rcases hact with ha | ha | ha
    · exact absurd ha h1
    · exact absurd ha h2
    · exact absurd ha h3

/-- C10 witness: a lookup payload leaves the initial state untouched. -/
theorem frame_spec_witness :
    (handle_webhook_request initialState
        ⟨false, false, some "lookup_appointment", some "john smith", none⟩).2 =
      initialState :=
  (frame_spec initialState
      ⟨false, false, some "lookup_appointment", some "john smith", none⟩).2.2
    (by decide) (by decide) (by decide)
